import Mathlib

/-!
Verification development for the SC allocation-list processor
(`src/domain_model.py` and `src/streamlit_app.py`).

The Python code is dynamically typed, so cell values flowing through the
transformation engine are modelled by one inductive type `PyVal` covering
the value shapes the program handles: `None`, strings, numbers, booleans
and dates.  Python truthiness and `str()` coercion are modelled explicitly.
Fallible Python code (constructors that raise, dict unpacking that can
throw `TypeError`, attribute errors) is modelled with `Except String`.
-/

/-- A calendar date as produced by `datetime.date`. -/
structure DateV where
  year : Nat
  month : Nat
  day : Nat
deriving DecidableEq

/-- A dynamically typed Python value as it appears in spreadsheet cells and
record fields: `None`, `str`, a number (`int`/`float` collapsed into `Rat`;
the program performs no arithmetic on cells, so exact rationals are a
faithful carrier for the values the claims exercise), `bool`, or a date. -/
inductive PyVal where
  | none
  | str (s : String)
  | num (q : Rat)
  | bool (b : Bool)
  | date (d : DateV)
deriving DecidableEq

/-- Python truthiness (`bool(x)` / use of a value in an `if` or `any`):
`None`, the empty string, zero and `False` are falsy; dates are truthy. -/
def truthy : PyVal → Bool
  | PyVal.none => false
  | PyVal.str s => !s.isEmpty
  | PyVal.num q => decide (q ≠ 0)
  | PyVal.bool b => b
  | PyVal.date _ => true

/-- Left-pad a number to two digits, as `date.isoformat` does. -/
def pad2 (n : Nat) : String :=
  if n < 10 then "0" ++ toString n else toString n

/-- Rendering of a numeric cell under `str()`.  Python float repr is a
shortest-roundtrip algorithm; it is abstracted here to a rendering that
agrees with Python on integral floats (`str(500.0) = "500.0"`).  No claim
evaluates `str()` on a non-integral number. -/
def numRepr (q : Rat) : String :=
  if q.den = 1 then toString q.num ++ ".0" else toString q.num ++ "/" ++ toString q.den

/-- Python `str()` coercion: `str(None) = "None"`, strings unchanged,
booleans render as `"True"`/`"False"`, dates as ISO `YYYY-MM-DD`. -/
def pyStr : PyVal → String
  | PyVal.none => "None"
  | PyVal.str s => s
  | PyVal.num q => numRepr q
  | PyVal.bool b => if b then "True" else "False"
  | PyVal.date d => toString d.year ++ "-" ++ pad2 d.month ++ "-" ++ pad2 d.day

/-- Python `str.upper()` (ASCII; the headers and cell values in play are
ASCII). -/
def pyUpper (s : String) : String :=
  String.mk (s.toList.map Char.toUpper)

/-- Python `str.lower()` (ASCII). -/
def pyLower (s : String) : String :=
  String.mk (s.toList.map Char.toLower)

/-- Strip leading and trailing whitespace from a string, as Python
`str.strip()` with no argument does. -/
def stripStr (s : String) : String :=
  String.mk (((s.toList.dropWhile Char.isWhitespace).reverse.dropWhile
    Char.isWhitespace).reverse)

/-- Python `str.strip()` as an operation on a dynamic value: defined on
strings only; on any other value the attribute lookup raises
`AttributeError`. -/
def pyStrip : PyVal → Except String String
  | PyVal.str s => Except.ok (stripStr s)
  | _ => Except.error "AttributeError: value has no attribute strip"

/-- Value object `SourceColumnName` (src/domain_model.py:28-35): wraps the
string; the validation of `__post_init__` lives in `mkSourceColumnName`. -/
structure SourceColumnName where
  value : String
deriving DecidableEq

/-- Value object `AccountIdentifier` (src/domain_model.py:38-45): wraps the
string; the validation of `__post_init__` lives in `mkAccountIdentifier`. -/
structure AccountIdentifier where
  value : String
deriving DecidableEq

/-- Constructor of `SourceColumnName` including `__post_init__`
(src/domain_model.py:33-35): raises unless the value is a non-empty
string (`not self.value or not isinstance(self.value, str)`). -/
def mkSourceColumnName : PyVal → Except String SourceColumnName
  | PyVal.str s =>
      if s.isEmpty then Except.error "Column name must be a non-empty string"
      else Except.ok ⟨s⟩
  | _ => Except.error "Column name must be a non-empty string"

/-- Constructor of `AccountIdentifier` including `__post_init__`
(src/domain_model.py:43-45): raises unless the value is a non-empty
string. -/
def mkAccountIdentifier : PyVal → Except String AccountIdentifier
  | PyVal.str s =>
      if s.isEmpty then Except.error "Account identifier must be a non-empty string"
      else Except.ok ⟨s⟩
  | _ => Except.error "Account identifier must be a non-empty string"

/-- Entity `AllocationRecord` (src/domain_model.py:52-67).  Python does not
enforce the dataclass annotations, so every field other than
`account_identifier` (always built through the value object in
`transform_row`) carries a raw `PyVal`. -/
structure AllocationRecord where
  effective_date : PyVal
  account_identifier : AccountIdentifier
  full_name : PyVal
  balance : PyVal
  fraud_warning : PyVal
  admin_hold : PyVal
  allocation_of_loss_reason : PyVal
  time_frame : PyVal
  managing_officer : PyVal
deriving DecidableEq

/-- Business-rule validation `AllocationRecord.validate`
(src/domain_model.py:69-82).  Each check appends its message; `strip()` is
only reached when the value is truthy, and raises (`Except.error`) when the
field is a truthy non-string. -/
def validate (r : AllocationRecord) : Except String (List String) := do
  let errors : List String := []
  let errors ←
    if truthy r.full_name then do
      let stripped ← pyStrip r.full_name
      pure (if stripped.isEmpty then errors ++ ["Full name cannot be empty"] else errors)
    else
      pure (errors ++ ["Full name cannot be empty"])
  let errors :=
    if r.balance = PyVal.none then errors ++ ["Balance must be provided"] else errors
  let errors ←
    if truthy r.time_frame then do
      let stripped ← pyStrip r.time_frame
      pure (if stripped.isEmpty then errors ++ ["Time frame must be specified"] else errors)
    else
      pure (errors ++ ["Time frame must be specified"])
  pure errors

/-- Entity `SourceSpreadsheet` (src/domain_model.py:85-101). -/
structure SourceSpreadsheet where
  title_row : String
  effective_date : DateV
  header_row : List String
  data_rows : List (List PyVal)
deriving DecidableEq

/-- Header lookup `SourceSpreadsheet.get_column_index`
(src/domain_model.py:96-101): `list.index` returns the first match and the
`ValueError` of a missing name is turned into `None`. -/
def SourceSpreadsheet.get_column_index (s : SourceSpreadsheet) (column_name : String) :
    Option Nat :=
  s.header_row.findIdx? (fun h => h == column_name)

/-- Translation entry `ColumnMapping` (src/domain_model.py:104-121); the
target-column validation of `__post_init__` lives in `mkColumnMapping`. -/
structure ColumnMapping where
  source_column : SourceColumnName
  target_column : String
  transformation : Option String
deriving DecidableEq

/-- The nine canonical target names accepted by `ColumnMapping.__post_init__`
(src/domain_model.py:115-119). -/
def valid_targets : List String :=
  ["EFFECTIVE_DATE", "ACCOUNT_IDENTIFIER", "FULL_NAME",
   "BALANCE", "FRAUD_WARNING", "ADMIN_HOLD",
   "ALLOCATION_OF_LOSS_REASON", "TIME_FRAME", "MANAGING_OFFICER"]

/-- Constructor of `ColumnMapping` including `__post_init__`
(src/domain_model.py:114-121). -/
def mkColumnMapping (source_column : SourceColumnName) (target_column : String)
    (transformation : Option String) : Except String ColumnMapping :=
  if target_column ∈ valid_targets then
    Except.ok ⟨source_column, target_column, transformation⟩
  else
    Except.error "Invalid target column"

/-- The standard mapping configuration `MappingService.get_default_mappings`
(src/domain_model.py:157-195). -/
def get_default_mappings : List ColumnMapping :=
  [⟨⟨"Account Identifier"⟩, "ACCOUNT_IDENTIFIER", Option.none⟩,
   ⟨⟨"Full Name"⟩, "FULL_NAME", Option.none⟩,
   ⟨⟨"Balance"⟩, "BALANCE", Option.none⟩,
   ⟨⟨"Fraud Warning - Desc"⟩, "FRAUD_WARNING", Option.some "yes_no_to_boolean"⟩,
   ⟨⟨"Admin Hold - Desc"⟩, "ADMIN_HOLD", Option.some "yes_no_to_boolean"⟩,
   ⟨⟨"Charge Off Reason Code - Desc"⟩, "ALLOCATION_OF_LOSS_REASON", Option.none⟩,
   ⟨⟨"Charge Off Group - Desc"⟩, "TIME_FRAME", Option.none⟩,
   ⟨⟨"Managing Officer - Desc"⟩, "MANAGING_OFFICER", Option.none⟩]

/-- The helper `get_value` inside `transform_row` (src/domain_model.py:214-218):
look the column up in the header; a missing name or an index at or past the
end of the row yields `None`, otherwise the cell at that index. -/
def get_value (source_spreadsheet : SourceSpreadsheet) (source_row : List PyVal)
    (source_col_name : String) : PyVal :=
  match source_spreadsheet.get_column_index source_col_name with
  | Option.none => PyVal.none
  | Option.some idx =>
      if source_row.length ≤ idx then PyVal.none else source_row.getD idx PyVal.none

/-- The helper `apply_transformation` inside `transform_row`
(src/domain_model.py:221-226): under the tag `"yes_no_to_boolean"` a string
maps to the boolean of a case-insensitive comparison with `"YES"` and any
other value through `bool(...)`; any other tag (or no tag) passes the value
through unchanged. -/
def apply_transformation (value : PyVal) (transformation : Option String) : PyVal :=
  if transformation = Option.some "yes_no_to_boolean" then
    match value with
    | PyVal.str s => PyVal.bool (pyUpper s == "YES")
    | v => PyVal.bool (truthy v)
  else value

/-- The `record_data` dict being built by `transform_row`
(src/domain_model.py:229-241): one optional slot per canonical field;
`extra_key` records an assignment under a key that is not a field of
`AllocationRecord`, which Python would later reject at `**`-unpacking. -/
structure RecordData where
  effective_date : Option PyVal
  account_identifier : Option AccountIdentifier
  full_name : Option PyVal
  balance : Option PyVal
  fraud_warning : Option PyVal
  admin_hold : Option PyVal
  allocation_of_loss_reason : Option PyVal
  time_frame : Option PyVal
  managing_officer : Option PyVal
  extra_key : Bool
deriving DecidableEq

/-- The dict assignment `record_data[field_name] = transformed_value`
(src/domain_model.py:241) for the non-identifier branch, keyed by the
lower-cased target name. -/
def setField (rd : RecordData) (field_name : String) (v : PyVal) : RecordData :=
  if field_name = "effective_date" then { rd with effective_date := Option.some v }
  else if field_name = "full_name" then { rd with full_name := Option.some v }
  else if field_name = "balance" then { rd with balance := Option.some v }
  else if field_name = "fraud_warning" then { rd with fraud_warning := Option.some v }
  else if field_name = "admin_hold" then { rd with admin_hold := Option.some v }
  else if field_name = "allocation_of_loss_reason" then
    { rd with allocation_of_loss_reason := Option.some v }
  else if field_name = "time_frame" then { rd with time_frame := Option.some v }
  else if field_name = "managing_officer" then { rd with managing_officer := Option.some v }
  else { rd with extra_key := true }

/-- One iteration of the mapping loop of `transform_row`
(src/domain_model.py:231-241), with the Python locals `value`,
`transformed_value` and `field_name` inlined.  The `ACCOUNT_IDENTIFIER`
target wraps the string-coerced value in an `AccountIdentifier`, whose
constructor may raise. -/
def apply_mapping (source_spreadsheet : SourceSpreadsheet) (source_row : List PyVal)
    (rd : RecordData) (mapping : ColumnMapping) : Except String RecordData :=
  if pyLower mapping.target_column = "account_identifier" then
    match mkAccountIdentifier (PyVal.str (pyStr (apply_transformation
        (get_value source_spreadsheet source_row mapping.source_column.value)
        mapping.transformation))) with
    | Except.ok acct => Except.ok { rd with account_identifier := Option.some acct }
    | Except.error e => Except.error e
  else
    Except.ok (setField rd (pyLower mapping.target_column)
      (apply_transformation
        (get_value source_spreadsheet source_row mapping.source_column.value)
        mapping.transformation))

/-- The `for mapping in mappings` loop of `transform_row`
(src/domain_model.py:231-241), threading `record_data` left to right. -/
def run_mappings (source_spreadsheet : SourceSpreadsheet) (source_row : List PyVal) :
    RecordData → List ColumnMapping → Except String RecordData
  | rd, [] => Except.ok rd
  | rd, m :: ms =>
    match apply_mapping source_spreadsheet source_row rd m with
    | Except.ok rd' => run_mappings source_spreadsheet source_row rd' ms
    | Except.error e => Except.error e

/-- The final `AllocationRecord(**record_data)` (src/domain_model.py:243):
`TypeError` when a key is unexpected or a required field is missing. -/
def mkAllocationRecord (rd : RecordData) : Except String AllocationRecord :=
  if rd.extra_key then Except.error "TypeError: unexpected keyword argument"
  else
    match rd.effective_date, rd.account_identifier, rd.full_name, rd.balance,
        rd.fraud_warning, rd.admin_hold, rd.allocation_of_loss_reason,
        rd.time_frame, rd.managing_officer with
    | Option.some ed, Option.some ai, Option.some fn, Option.some b, Option.some fw,
      Option.some ah, Option.some ar, Option.some tf, Option.some mo =>
        Except.ok ⟨ed, ai, fn, b, fw, ah, ar, tf, mo⟩
    | _, _, _, _, _, _, _, _, _ => Except.error "TypeError: missing required argument"

/-- The anti-corruption layer `RecordTransformationService.transform_row`
(src/domain_model.py:204-243): seed `record_data` with the stamped
effective date, run every mapping over it, then unpack into the record. -/
def transform_row (effective_date : DateV) (source_row : List PyVal)
    (source_spreadsheet : SourceSpreadsheet) (mappings : List ColumnMapping) :
    Except String AllocationRecord :=
  match run_mappings source_spreadsheet source_row
      ⟨Option.some (PyVal.date effective_date), Option.none, Option.none, Option.none,
       Option.none, Option.none, Option.none, Option.none, Option.none, false⟩
      mappings with
  | Except.ok rd => mkAllocationRecord rd
  | Except.error e => Except.error e

-- Scenario data for the end-to-end claim (spec §8 bullet 7).

/-- The header row of the end-to-end scenario. -/
def scenarioHeader : List String :=
  ["Account Identifier", "Full Name", "Balance", "Fraud Warning - Desc",
   "Admin Hold - Desc", "Charge Off Reason Code - Desc",
   "Charge Off Group - Desc", "Managing Officer - Desc"]

/-- The data row of the end-to-end scenario. -/
def scenarioRow : List PyVal :=
  [PyVal.str "A100", PyVal.str "Jane Doe", PyVal.num 500, PyVal.str "YES",
   PyVal.str "NO", PyVal.str "Code1", PyVal.str "Q1-2024", PyVal.str "Officer X"]

/-- The source spreadsheet of the end-to-end scenario. -/
def scenarioSheet : SourceSpreadsheet :=
  ⟨"SC Allocation List", ⟨2024, 1, 1⟩, scenarioHeader, [scenarioRow]⟩

/-- The record the end-to-end scenario is expected to produce. -/
def scenarioRecord : AllocationRecord :=
  ⟨PyVal.date ⟨2024, 1, 1⟩, ⟨"A100"⟩, PyVal.str "Jane Doe", PyVal.num 500,
   PyVal.bool true, PyVal.bool false, PyVal.str "Code1", PyVal.str "Q1-2024",
   PyVal.str "Officer X"⟩

/-- The data-row extraction of `AllocationListProcessor.parse_excel_file`
(src/streamlit_app.py:61): of the rows from index 3 on, exactly those
satisfying Python `any(row)` — some cell truthy — are kept, in order. -/
def parse_data_rows (rows : List (List PyVal)) : List (List PyVal) :=
  (rows.drop 3).filter (fun row => row.any truthy)

/-- Python `float()` coercion as used at src/streamlit_app.py:154.  Numbers
and booleans coerce exactly; `float()` of a string performs Python decimal
parsing, which no claim exercises and which is left as a failure here; of
`None` or a date it raises `TypeError`. -/
def pyFloat : PyVal → Except String PyVal
  | PyVal.num q => Except.ok (PyVal.num q)
  | PyVal.bool b => Except.ok (PyVal.num (if b then 1 else 0))
  | PyVal.str _ => Except.error "float() string parsing not modelled"
  | PyVal.none => Except.error "TypeError: float() argument cannot be None"
  | PyVal.date _ => Except.error "TypeError: float() argument cannot be a date"

/-- The BALANCE entry built by `AllocationListProcessor.process_all_data`
(src/streamlit_app.py:154): `float(record.balance) if record.balance else
None` — a truthiness test, not a null test. -/
def export_balance (balance : PyVal) : Except String PyVal :=
  if truthy balance then pyFloat balance else Except.ok PyVal.none

/-- Modelled from the spec wording only: a cell that is "empty/absent" —
the absent value `None` or the empty string.  This is the spec-side
comparator for the row-skipping rule, to be compared with the code's
truthiness test. -/
def emptyCell (c : PyVal) : Bool :=
  c == PyVal.none || c == PyVal.str ""

-- Concrete data used by individual claims.

/-- Workbook rows exercising the row-skipping rule on a row whose only
cell holds the number zero. -/
def zeroRowBook : List (List PyVal) :=
  [[PyVal.str "Title"], [PyVal.date ⟨2024, 1, 1⟩], [PyVal.str "Header"],
   [PyVal.num 0]]

/-- A header row missing the account-identifier, fraud-warning and
admin-hold columns. -/
def missingColHeader : List String :=
  ["Full Name", "Balance", "Charge Off Reason Code - Desc",
   "Charge Off Group - Desc", "Managing Officer - Desc"]

/-- A data row aligned with `missingColHeader`. -/
def missingColRow : List PyVal :=
  [PyVal.str "Jane Doe", PyVal.num 500, PyVal.str "Code1", PyVal.str "Q1-2024",
   PyVal.str "Officer X"]

/-- A spreadsheet whose header lacks the account-identifier, fraud-warning
and admin-hold columns. -/
def missingColSheet : SourceSpreadsheet :=
  ⟨"SC Allocation List", ⟨2024, 1, 1⟩, missingColHeader, [missingColRow]⟩

/-- The record `transform_row` produces from `missingColRow` over
`missingColSheet` with the default mappings. -/
def missingColRecord : AllocationRecord :=
  ⟨PyVal.date ⟨2024, 1, 1⟩, ⟨"None"⟩, PyVal.str "Jane Doe", PyVal.num 500,
   PyVal.bool false, PyVal.bool false, PyVal.str "Code1", PyVal.str "Q1-2024",
   PyVal.str "Officer X"⟩

/-- A record with an empty full name, a present balance and a non-empty
time frame. -/
def emptyNameRecord : AllocationRecord :=
  ⟨PyVal.date ⟨2024, 1, 1⟩, ⟨"A1"⟩, PyVal.str "", PyVal.num 500,
   PyVal.bool false, PyVal.bool false, PyVal.str "Code1", PyVal.str "Q1",
   PyVal.str "Officer"⟩

/-- A record whose balance is the number zero. -/
def zeroBalanceRecord : AllocationRecord :=
  ⟨PyVal.date ⟨2024, 1, 1⟩, ⟨"A1"⟩, PyVal.str "Jane", PyVal.num 0,
   PyVal.bool false, PyVal.bool false, PyVal.str "Code1", PyVal.str "Q1",
   PyVal.str "Officer"⟩

/-- Claim C1: with effective date 2024-01-01, the scenario header row, the
scenario data row and the default mappings, `transform_row` produces the
record with account identifier "A100", full name "Jane Doe", balance 500.0,
fraud warning true, admin hold false, loss reason "Code1", time frame
"Q1-2024" and managing officer "Officer X", and `validate` on that record
returns the empty list. -/
theorem claim_C1_end_to_end :
    transform_row ⟨2024, 1, 1⟩ scenarioRow scenarioSheet get_default_mappings =
      Except.ok scenarioRecord ∧
    validate scenarioRecord = Except.ok [] := by
  constructor
  · rfl
  · rfl

/-- Shape of `validate` on a record whose name and time-frame fields are
strings, as the dataclass annotations promise: the result is exactly the
concatenation of the three independent checks. -/
lemma validate_shape (r : AllocationRecord) (fn tf : String)
    (hfn : r.full_name = PyVal.str fn) (htf : r.time_frame = PyVal.str tf) :
    validate r = Except.ok
      ((if (stripStr fn).isEmpty then ["Full name cannot be empty"] else []) ++
       (if r.balance = PyVal.none then ["Balance must be provided"] else []) ++
       (if (stripStr tf).isEmpty then ["Time frame must be specified"] else [])) := by
  have hsfn : fn.isEmpty = true → (stripStr fn).isEmpty = true := by
    intro h
    rw [(String.isEmpty_iff fn).mp h]
    rfl
  have hstf : tf.isEmpty = true → (stripStr tf).isEmpty = true := by
    intro h
    rw [(String.isEmpty_iff tf).mp h]
    rfl
  by_cases h1 : fn.isEmpty <;> by_cases h3 : (stripStr fn).isEmpty <;>
    by_cases h2 : tf.isEmpty <;> by_cases h4 : (stripStr tf).isEmpty <;>
    by_cases hb : r.balance = PyVal.none <;>
    first
    | exact absurd (hsfn h1) h3
    | exact absurd (hstf h2) h4
    | simp [validate, hfn, htf, truthy, pyStrip, bind, Except.bind, pure,
        Except.pure, h1, h2, h3, h4, hb]

/-- Claim C4: for every record whose full name and time frame are strings,
`validate` returns exactly the messages of the checks that fail — full name
empty after trimming, balance absent, time frame empty after trimming —
each check evaluated independently and nothing else checked. -/
theorem claim_C4_validate_exact (r : AllocationRecord) (fn tf : String)
    (hfn : r.full_name = PyVal.str fn) (htf : r.time_frame = PyVal.str tf) :
    validate r = Except.ok
      ((if (stripStr fn).isEmpty then ["Full name cannot be empty"] else []) ++
       (if r.balance = PyVal.none then ["Balance must be provided"] else []) ++
       (if (stripStr tf).isEmpty then ["Time frame must be specified"] else [])) :=
  validate_shape r fn tf hfn htf

/-- Witness for C4: a record with empty full name, present balance and
non-empty time frame yields exactly the one full-name violation. -/
theorem claim_C4_witness :
    validate emptyNameRecord = Except.ok ["Full name cannot be empty"] :=
  claim_C4_validate_exact emptyNameRecord "" "Q1" rfl rfl

/-- Claim C3: under the yes/no-to-boolean tag, a string maps to `true`
exactly when its upper-casing is `"YES"`; any other string maps to `false`;
every falsy value maps to `false`; every non-string maps through generic
boolean coercion (truthiness); with no tag every value passes through
unchanged. -/
theorem claim_C3_yes_no_transformation :
    (∀ s : String, pyUpper s = "YES" →
      apply_transformation (PyVal.str s) (Option.some "yes_no_to_boolean") =
        PyVal.bool true) ∧
    (∀ s : String, pyUpper s ≠ "YES" →
      apply_transformation (PyVal.str s) (Option.some "yes_no_to_boolean") =
        PyVal.bool false) ∧
    (∀ v : PyVal, truthy v = false →
      apply_transformation v (Option.some "yes_no_to_boolean") = PyVal.bool false) ∧
    (∀ v : PyVal, (∀ s, v ≠ PyVal.str s) →
      apply_transformation v (Option.some "yes_no_to_boolean") =
        PyVal.bool (truthy v)) ∧
    (∀ v : PyVal, apply_transformation v Option.none = v) := by
  refine ⟨?_, ?_, ?_, ?_, ?_⟩
  · intro s h
    simp [apply_transformation, h]
  · intro s h
    simp [apply_transformation, h]
  · intro v h
    cases v with
    | str s =>
        have hs : s = "" := by
          simpa [truthy, String.isEmpty_iff] using h
        subst hs
        rfl
    | none => rfl
    | num q => simp [apply_transformation, truthy] at h ⊢; simp [h]
    | bool b => simp [truthy] at h; simp [apply_transformation, truthy, h]
    | date d => simp [truthy] at h
  · intro v h
    cases v with
    | str s => exact absurd rfl (h s)
    | none => rfl
    | num q => rfl
    | bool b => rfl
    | date d => rfl
  · intro v
    rfl

/-- Witness for C3: "Yes" maps to true, "no" to false, `None` to false, a
non-zero number to its truthiness, and an untagged value passes through. -/
theorem claim_C3_witness :
    apply_transformation (PyVal.str "Yes") (Option.some "yes_no_to_boolean") =
      PyVal.bool true ∧
    apply_transformation (PyVal.str "no") (Option.some "yes_no_to_boolean") =
      PyVal.bool false ∧
    apply_transformation PyVal.none (Option.some "yes_no_to_boolean") =
      PyVal.bool false ∧
    apply_transformation (PyVal.num 7) (Option.some "yes_no_to_boolean") =
      PyVal.bool (truthy (PyVal.num 7)) ∧
    apply_transformation (PyVal.str "maybe") Option.none = PyVal.str "maybe" :=
  ⟨claim_C3_yes_no_transformation.1 "Yes" rfl,
   claim_C3_yes_no_transformation.2.1 "no" (by decide),
   claim_C3_yes_no_transformation.2.2.1 PyVal.none rfl,
   claim_C3_yes_no_transformation.2.2.2.1 (PyVal.num 7)
     (fun s h => PyVal.noConfusion h),
   claim_C3_yes_no_transformation.2.2.2.2 (PyVal.str "maybe")⟩

/-- Claim C5: the default mapping configuration is the ordered table of
exactly 8 entries pairing the expected source headers with the canonical
targets, with the yes/no-to-boolean tag on exactly the fraud-warning and
admin-hold entries. -/
theorem claim_C5_default_mappings :
    get_default_mappings.length = 8 ∧
    get_default_mappings.map (fun m => m.source_column.value) =
      ["Account Identifier", "Full Name", "Balance", "Fraud Warning - Desc",
       "Admin Hold - Desc", "Charge Off Reason Code - Desc",
       "Charge Off Group - Desc", "Managing Officer - Desc"] ∧
    get_default_mappings.map (fun m => m.target_column) =
      ["ACCOUNT_IDENTIFIER", "FULL_NAME", "BALANCE", "FRAUD_WARNING",
       "ADMIN_HOLD", "ALLOCATION_OF_LOSS_REASON", "TIME_FRAME",
       "MANAGING_OFFICER"] ∧
    get_default_mappings.map (fun m => m.transformation) =
      [Option.none, Option.none, Option.none, Option.some "yes_no_to_boolean",
       Option.some "yes_no_to_boolean", Option.none, Option.none, Option.none] :=
  ⟨rfl, rfl, rfl, rfl⟩

/-- Claim C8: constructing an `AccountIdentifier` or a `SourceColumnName`
from a non-string value or from the empty string fails at construction, so
every successfully constructed instance carries a non-empty string. -/
theorem claim_C8_value_objects_fail_fast :
    (∀ v : PyVal, ((∀ s : String, v ≠ PyVal.str s) ∨ v = PyVal.str "") →
      (∃ e, mkAccountIdentifier v = Except.error e) ∧
      (∃ e, mkSourceColumnName v = Except.error e)) ∧
    (∀ v a, mkAccountIdentifier v = Except.ok a → a.value ≠ "") ∧
    (∀ v c, mkSourceColumnName v = Except.ok c → c.value ≠ "") := by
  refine ⟨?_, ?_, ?_⟩
  · intro v h
    cases v with
    | str s =>
        rcases h with h | h
        · exact absurd rfl (h s)
        · cases h
          exact ⟨⟨_, rfl⟩, ⟨_, rfl⟩⟩
    | none => exact ⟨⟨_, rfl⟩, ⟨_, rfl⟩⟩
    | num q => exact ⟨⟨_, rfl⟩, ⟨_, rfl⟩⟩
    | bool b => exact ⟨⟨_, rfl⟩, ⟨_, rfl⟩⟩
    | date d => exact ⟨⟨_, rfl⟩, ⟨_, rfl⟩⟩
  · intro v a h
    cases v with
    | str s =>
        by_cases hs : s.isEmpty
        · simp [mkAccountIdentifier, hs] at h
        · simp [mkAccountIdentifier, hs] at h
          rw [← h]
          simpa [String.isEmpty_iff] using hs
    | none => simp [mkAccountIdentifier] at h
    | num q => simp [mkAccountIdentifier] at h
    | bool b => simp [mkAccountIdentifier] at h
    | date d => simp [mkAccountIdentifier] at h
  · intro v c h
    cases v with
    | str s =>
        by_cases hs : s.isEmpty
        · simp [mkSourceColumnName, hs] at h
        · simp [mkSourceColumnName, hs] at h
          rw [← h]
          simpa [String.isEmpty_iff] using hs
    | none => simp [mkSourceColumnName] at h
    | num q => simp [mkSourceColumnName] at h
    | bool b => simp [mkSourceColumnName] at h
    | date d => simp [mkSourceColumnName] at h

/-- Witness for C8: construction fails on a number and on the empty
string. -/
theorem claim_C8_witness :
    (∃ e, mkAccountIdentifier (PyVal.num 0) = Except.error e) ∧
    (∃ e, mkSourceColumnName (PyVal.str "") = Except.error e) :=
  ⟨(claim_C8_value_objects_fail_fast.1 (PyVal.num 0)
      (Or.inl (fun _ h => PyVal.noConfusion h))).1,
   (claim_C8_value_objects_fail_fast.1 (PyVal.str "") (Or.inr rfl)).2⟩

/-- The account-identifier constructor succeeds on a non-empty string and
returns exactly that string. -/
lemma mkAccountIdentifier_ok_value (x : String) (a : AccountIdentifier)
    (h : mkAccountIdentifier (PyVal.str x) = Except.ok a) : a.value = x := by
  by_cases hx : x.isEmpty
  · simp [mkAccountIdentifier, hx] at h
  · simp [mkAccountIdentifier, hx] at h
    rw [← h]

/-- Unfolding of `transform_row` on the default mapping list: the result is
a single stuck point — the account-identifier construction from the
string-coerced cell — and on success the record whose fields are the
fetched (and, for the two flag columns, transformed) cell values. -/
lemma transform_row_default_shape (d : DateV) (row : List PyVal) (s : SourceSpreadsheet) :
    transform_row d row s get_default_mappings =
      match mkAccountIdentifier (PyVal.str (pyStr (get_value s row "Account Identifier"))) with
      | Except.error e => Except.error e
      | Except.ok acct => Except.ok
          ⟨PyVal.date d, acct, get_value s row "Full Name", get_value s row "Balance",
           apply_transformation (get_value s row "Fraud Warning - Desc")
             (Option.some "yes_no_to_boolean"),
           apply_transformation (get_value s row "Admin Hold - Desc")
             (Option.some "yes_no_to_boolean"),
           get_value s row "Charge Off Reason Code - Desc",
           get_value s row "Charge Off Group - Desc",
           get_value s row "Managing Officer - Desc"⟩ := by
  have h1 : transform_row d row s get_default_mappings =
      (match (match (match mkAccountIdentifier
              (PyVal.str (pyStr (get_value s row "Account Identifier"))) with
          | Except.ok acct => Except.ok
              (⟨Option.some (PyVal.date d), Option.some acct, Option.none, Option.none,
                Option.none, Option.none, Option.none, Option.none, Option.none,
                false⟩ : RecordData)
          | Except.error e => Except.error e) with
        | Except.ok rd' => run_mappings s row rd'
            [⟨⟨"Full Name"⟩, "FULL_NAME", Option.none⟩,
             ⟨⟨"Balance"⟩, "BALANCE", Option.none⟩,
             ⟨⟨"Fraud Warning - Desc"⟩, "FRAUD_WARNING", Option.some "yes_no_to_boolean"⟩,
             ⟨⟨"Admin Hold - Desc"⟩, "ADMIN_HOLD", Option.some "yes_no_to_boolean"⟩,
             ⟨⟨"Charge Off Reason Code - Desc"⟩, "ALLOCATION_OF_LOSS_REASON", Option.none⟩,
             ⟨⟨"Charge Off Group - Desc"⟩, "TIME_FRAME", Option.none⟩,
             ⟨⟨"Managing Officer - Desc"⟩, "MANAGING_OFFICER", Option.none⟩]
        | Except.error e => Except.error e) with
      | Except.ok rd => mkAllocationRecord rd
      | Except.error e => Except.error e) := rfl
  rw [h1]
  cases mkAccountIdentifier (PyVal.str (pyStr (get_value s row "Account Identifier"))) with
  | error e => rfl
  | ok acct => rfl

/-- Whenever `transform_row` on the default mappings succeeds, the produced
record is exactly the stamped date plus the fetched cell values, with the
account identifier carrying the string coercion of its cell. -/
lemma transform_default_ok (d : DateV) (row : List PyVal) (s : SourceSpreadsheet)
    (r : AllocationRecord)
    (hr : transform_row d row s get_default_mappings = Except.ok r) :
    r = ⟨PyVal.date d, r.account_identifier, get_value s row "Full Name",
         get_value s row "Balance",
         apply_transformation (get_value s row "Fraud Warning - Desc")
           (Option.some "yes_no_to_boolean"),
         apply_transformation (get_value s row "Admin Hold - Desc")
           (Option.some "yes_no_to_boolean"),
         get_value s row "Charge Off Reason Code - Desc",
         get_value s row "Charge Off Group - Desc",
         get_value s row "Managing Officer - Desc"⟩ ∧
    r.account_identifier.value = pyStr (get_value s row "Account Identifier") := by
  rw [transform_row_default_shape] at hr
  cases hA : mkAccountIdentifier
      (PyVal.str (pyStr (get_value s row "Account Identifier"))) with
  | error e => rw [hA] at hr; cases hr
  | ok acct =>
      rw [hA] at hr
      simp only [] at hr
      cases hr
      exact ⟨rfl, mkAccountIdentifier_ok_value _ _ hA⟩

/-- Success of `transform_row` on the default mappings depends only on the
account-identifier cell: it succeeds exactly when the string coercion of
that cell is non-empty. -/
lemma transform_default_isOk (d : DateV) (row : List PyVal) (s : SourceSpreadsheet) :
    (transform_row d row s get_default_mappings).isOk =
      !(pyStr (get_value s row "Account Identifier")).isEmpty := by
  rw [transform_row_default_shape]
  by_cases hx : (pyStr (get_value s row "Account Identifier")).isEmpty
  · simp [mkAccountIdentifier, hx, Except.isOk, Except.toBool]
  · simp [mkAccountIdentifier, hx, Except.isOk, Except.toBool]

/-- Counterexample to C2 as stated: over a header missing the
account-identifier, fraud-warning and admin-hold columns, `transform_row`
succeeds but the fraud-warning and admin-hold fields are `False`, not null,
and the account identifier holds the text "None". -/
theorem claim_C2_counterexample :
    ∃ r, transform_row ⟨2024, 1, 1⟩ missingColRow missingColSheet get_default_mappings =
        Except.ok r ∧
      r.fraud_warning = PyVal.bool false ∧ r.fraud_warning ≠ PyVal.none ∧
      r.admin_hold ≠ PyVal.none ∧ r.account_identifier = ⟨"None"⟩ :=
  ⟨missingColRecord, rfl, rfl, fun h => PyVal.noConfusion h,
   fun h => PyVal.noConfusion h, rfl⟩

/-- Claim C2 as amended: a mapping whose source column is absent (or whose
index is past the row end) fetches `None` and never makes `transform_row`
raise — success depends only on the account-identifier cell — but the
resulting field is null only for the untransformed non-identifier targets;
the two yes/no-transformed targets become `False` and the account
identifier becomes the non-null text "None". -/
theorem claim_C2_missing_source_columns (d : DateV) (row : List PyVal)
    (s : SourceSpreadsheet) :
    ((transform_row d row s get_default_mappings).isOk =
      !(pyStr (get_value s row "Account Identifier")).isEmpty) ∧
    (get_value s row "Account Identifier" = PyVal.none →
      ∀ r, transform_row d row s get_default_mappings = Except.ok r →
        r.account_identifier.value = "None") ∧
    (get_value s row "Full Name" = PyVal.none →
      ∀ r, transform_row d row s get_default_mappings = Except.ok r →
        r.full_name = PyVal.none) ∧
    (get_value s row "Balance" = PyVal.none →
      ∀ r, transform_row d row s get_default_mappings = Except.ok r →
        r.balance = PyVal.none) ∧
    (get_value s row "Charge Off Reason Code - Desc" = PyVal.none →
      ∀ r, transform_row d row s get_default_mappings = Except.ok r →
        r.allocation_of_loss_reason = PyVal.none) ∧
    (get_value s row "Charge Off Group - Desc" = PyVal.none →
      ∀ r, transform_row d row s get_default_mappings = Except.ok r →
        r.time_frame = PyVal.none) ∧
    (get_value s row "Managing Officer - Desc" = PyVal.none →
      ∀ r, transform_row d row s get_default_mappings = Except.ok r →
        r.managing_officer = PyVal.none) ∧
    (get_value s row "Fraud Warning - Desc" = PyVal.none →
      ∀ r, transform_row d row s get_default_mappings = Except.ok r →
        r.fraud_warning = PyVal.bool false) ∧
    (get_value s row "Admin Hold - Desc" = PyVal.none →
      ∀ r, transform_row d row s get_default_mappings = Except.ok r →
        r.admin_hold = PyVal.bool false) := by
  refine ⟨transform_default_isOk d row s, ?_, ?_, ?_, ?_, ?_, ?_, ?_, ?_⟩
  · intro h r hr
    have h2 := (transform_default_ok d row s r hr).2
    rw [h] at h2
    exact h2
  · intro h r hr
    rw [(transform_default_ok d row s r hr).1]
    rw [h]
    try rfl
  · intro h r hr
    rw [(transform_default_ok d row s r hr).1]
    rw [h]
    try rfl
  · intro h r hr
    rw [(transform_default_ok d row s r hr).1]
    rw [h]
    try rfl
  · intro h r hr
    rw [(transform_default_ok d row s r hr).1]
    rw [h]
    try rfl
  · intro h r hr
    rw [(transform_default_ok d row s r hr).1]
    rw [h]
    try rfl
  · intro h r hr
    rw [(transform_default_ok d row s r hr).1]
    rw [h]
    try rfl
  · intro h r hr
    rw [(transform_default_ok d row s r hr).1]
    rw [h]
    try rfl

/-- Witness for the amended C2 at a concrete input: with the
account-identifier and fraud-warning columns absent, the transformation
succeeds, the identifier holds "None" and the fraud flag is `False`. -/
theorem claim_C2_witness :
    (transform_row ⟨2024, 1, 1⟩ missingColRow missingColSheet
      get_default_mappings).isOk = true ∧
    missingColRecord.account_identifier.value = "None" ∧
    missingColRecord.fraud_warning = PyVal.bool false :=
  ⟨((claim_C2_missing_source_columns ⟨2024, 1, 1⟩ missingColRow missingColSheet).1).trans
      rfl,
   (claim_C2_missing_source_columns ⟨2024, 1, 1⟩ missingColRow
      missingColSheet).2.1 rfl missingColRecord rfl,
   (claim_C2_missing_source_columns ⟨2024, 1, 1⟩ missingColRow
      missingColSheet).2.2.2.2.2.2.2.1 rfl missingColRecord rfl⟩

/-- Claim C7: whatever the source row, the record produced by
`transform_row` under the default mappings carries exactly the
effective-date argument — the date is stamped, never read from a cell. -/
theorem claim_C7_effective_date_stamped (d : DateV) (row : List PyVal)
    (s : SourceSpreadsheet) (r : AllocationRecord)
    (hr : transform_row d row s get_default_mappings = Except.ok r) :
    r.effective_date = PyVal.date d := by
  rw [(transform_default_ok d row s r hr).1]

/-- Witness for C7 at the end-to-end scenario input. -/
theorem claim_C7_witness : scenarioRecord.effective_date = PyVal.date ⟨2024, 1, 1⟩ :=
  claim_C7_effective_date_stamped ⟨2024, 1, 1⟩ scenarioRow scenarioSheet
    scenarioRecord rfl

/-- Claim C9: when the account-identifier cell is fetched as `None` (absent
column or short row), `transform_row` under the default mappings does not
raise, and the record carries an `AccountIdentifier` whose value is the
non-empty text "None" — string coercion of the null. -/
theorem claim_C9_account_identifier_from_none (d : DateV) (row : List PyVal)
    (s : SourceSpreadsheet)
    (h : get_value s row "Account Identifier" = PyVal.none) :
    (transform_row d row s get_default_mappings).isOk = true ∧
    ∀ r, transform_row d row s get_default_mappings = Except.ok r →
      r.account_identifier.value = "None" ∧ r.account_identifier.value ≠ "" := by
  constructor
  · rw [transform_default_isOk, h]
    rfl
  · intro r hr
    have h2 := (transform_default_ok d row s r hr).2
    rw [h] at h2
    refine ⟨h2, ?_⟩
    rw [h2]
    decide

/-- Witness for C9 at a concrete spreadsheet missing the account-identifier
column. -/
theorem claim_C9_witness :
    (transform_row ⟨2024, 1, 1⟩ missingColRow missingColSheet
      get_default_mappings).isOk = true ∧
    missingColRecord.account_identifier.value = "None" :=
  ⟨(claim_C9_account_identifier_from_none ⟨2024, 1, 1⟩ missingColRow
      missingColSheet rfl).1,
   ((claim_C9_account_identifier_from_none ⟨2024, 1, 1⟩ missingColRow
      missingColSheet rfl).2 missingColRecord rfl).1⟩

/-- Counterexample to C6 as stated: a row whose only cell holds the number
zero — a non-empty cell — is nevertheless excluded from the parsed data
rows, because the code tests Python truthiness, not emptiness. -/
theorem claim_C6_counterexample :
    parse_data_rows zeroRowBook = [] ∧
    [PyVal.num 0] ∈ zeroRowBook.drop 3 ∧
    emptyCell (PyVal.num 0) = false := by
  refine ⟨rfl, ?_, rfl⟩
  simp [zeroRowBook]

/-- Claim C6 as amended: a data row (row 3 onward) is retained exactly when
some cell of it is truthy in the Python sense; a row all of whose cells are
falsy — empty or absent, but also zero or `False` — is excluded. -/
theorem claim_C6_row_filter (rows : List (List PyVal)) (row : List PyVal) :
    row ∈ parse_data_rows rows ↔ row ∈ rows.drop 3 ∧ row.any truthy = true := by
  simp [parse_data_rows, List.mem_filter]

/-- Claim C10: a record whose balance is the number zero passes the
balance validation check (which tests for null only), yet the export step
of `process_all_data` emits its BALANCE as null, because it tests
truthiness rather than null. -/
theorem claim_C10_zero_balance (r : AllocationRecord) (fn tf : String)
    (hb : r.balance = PyVal.num 0)
    (hfn : r.full_name = PyVal.str fn) (htf : r.time_frame = PyVal.str tf) :
    (∃ l, validate r = Except.ok l ∧ "Balance must be provided" ∉ l) ∧
    export_balance r.balance = Except.ok PyVal.none := by
  have hbn : ¬(r.balance = PyVal.none) := by
    rw [hb]
    exact fun h => PyVal.noConfusion h
  constructor
  · refine ⟨_, validate_shape r fn tf hfn htf, ?_⟩
    by_cases h1 : (stripStr fn).isEmpty <;> by_cases h2 : (stripStr tf).isEmpty <;>
      simp [h1, h2, hbn]
  · rw [hb]
    rfl

/-- Witness for C10 at a concrete zero-balance record. -/
theorem claim_C10_witness :
    (∃ l, validate zeroBalanceRecord = Except.ok l ∧
      "Balance must be provided" ∉ l) ∧
    export_balance zeroBalanceRecord.balance = Except.ok PyVal.none :=
  claim_C10_zero_balance zeroBalanceRecord "Jane" "Q1" rfl rfl rfl
